import Mathlib

/-!
Shallow embedding of the Jsonable crate: the `Jsonable` trait of
`crates/jsonable_types/src/lib.rs` (its default `from_json`, the
hand-written codecs for numbers, `String`, `Option`, `Vec`, fixed-size
arrays) and the code that the derive macros in
`crates/jsonable_macros/src/{structs,enums}.rs` generate for concrete
struct and enum shapes.

Conventions:
* `serde_json::Value` is the inductive `Value` below; a `serde_json`
  `Number` is one of `posInt` (the `PosInt` / `u64` payload), `negInt`
  (the `NegInt` / negative `i64` payload) or `double` (the `Float`
  payload, modelled as a rational since no claim computes with floats).
* `serde_json::Map` (a `BTreeMap`, keys unique) is an association list;
  concrete objects below are written with their keys already in the
  map's iteration (sorted) order.
* A Rust `panic!` is `Option.none`: every function that can panic
  returns an `Option`.
* Machine integers are `Nat`/`Int`; the Rust `as` narrowing casts are
  `% 2 ^ w` for unsigned targets and `Int.bmod · (2 ^ w)` (two's
  complement truncation) for signed targets.
-/

inductive JNumber : Type where
  | posInt (n : Nat)
  | negInt (n : Int)
  | double (q : ℚ)

inductive Value : Type where
  | null : Value
  | bool (b : Bool) : Value
  | number (n : JNumber) : Value
  | str (s : String) : Value
  | arr (elems : List Value) : Value
  | obj (entries : List (String × Value)) : Value

/-- `serde_json::Number::as_u64`: `Some` only for the `PosInt` payload. -/
def JNumber.as_u64 : JNumber → Option Nat
  | .posInt n => some n
  | .negInt _ => none
  | .double _ => none

/-- `serde_json::Number::as_i64`: `PosInt` when it fits in `i64`, `NegInt` always. -/
def JNumber.as_i64 : JNumber → Option Int
  | .posInt n => if n < 2 ^ 63 then some n else none
  | .negInt n => some n
  | .double _ => none

/-- `serde_json::Value::as_u64`. -/
def Value.as_u64 : Value → Option Nat
  | .number n => n.as_u64
  | _ => none

/-- `serde_json::Value::as_i64`. -/
def Value.as_i64 : Value → Option Int
  | .number n => n.as_i64
  | _ => none

/-- `serde_json::Value::as_str`. -/
def Value.as_str : Value → Option String
  | .str s => some s
  | _ => none

/-- `serde_json::Map::get` (keys of a `BTreeMap` are unique, so first match). -/
def mapGet : List (String × Value) → String → Option Value
  | [], _ => none
  | (k, v) :: rest, key => if k = key then some v else mapGet rest key

/-- `map.get(key).unwrap_or(default)` / `map.remove(key).unwrap_or(default)`. -/
def mapGetD (map : List (String × Value)) (key : String) (default : Value) : Value :=
  (mapGet map key).getD default

/-- The residue of `serde_json::Map::remove`: the map without the (unique) key. -/
def removeKey : List (String × Value) → String → List (String × Value)
  | [], _ => []
  | (k, v) :: rest, key => if k = key then rest else (k, v) :: removeKey rest key

/-- `serde_json::Map::contains_key`. -/
def containsKey : List (String × Value) → String → Bool
  | [], _ => false
  | (k, _) :: rest, key => k = key || containsKey rest key

/-- `map.keys().last()`. -/
def lastKey (map : List (String × Value)) : Option String :=
  (map.map Prod.fst).getLast?

/-- `JsonableError` from `crates/jsonable_types/src/lib.rs`; the first four
variants are declared there, the remaining ones are the variants the
derive macros in `crates/jsonable_macros` construct. -/
inductive JsonableError : Type where
  | incompatibleJsonType (got expected : String)
  | incompatibleEntryForType (ty : String)
  | innerErrorForType (ty : String) (error : JsonableError)
  | invalidArrayLength (got expected : Nat)
  | innerErrorsForType (ty : String) (errors : List JsonableError)
  | missingKeyForEnumVariant (variant key : String)
  | incorrectFieldCountForEnum (enumType variant : String) (count : Nat)
  | incorrectObjectKeyCountForEnum (ty : String) (count : Nat)
  | incorrectKeyForEnum (ty key : String)
  | invalidEnumStringVariant (enumType got : String) (expected : List String)

/-- `jsonable_types::Result<T>`. -/
abbrev JResult (α : Type) := Except JsonableError α

/-- The default `Jsonable::from_json`: validate, then — only on `Ok` —
`from_json_unchecked` (which may panic, hence the outer `Option`). -/
def Jsonable.from_json {α : Type} (validate : Value → JResult Unit)
    (fromUnchecked : Value → Option α) (json : Value) : Option (JResult α) :=
  match validate json with
  | .ok _ => (fromUnchecked json).map Except.ok
  | .error err => some (.error err)

/-- `validate_json` generated by `number_impl!` (identical for every numeric type). -/
def Number.validate_json : Value → JResult Unit
  | .number _ => .ok ()
  | .arr _ => .error (.incompatibleJsonType "array" "number")
  | .bool _ => .error (.incompatibleJsonType "bool" "number")
  | .null => .error (.incompatibleJsonType "null" "number")
  | .obj _ => .error (.incompatibleJsonType "object" "number")
  | .str _ => .error (.incompatibleJsonType "string" "number")

def u8.validate_json : Value → JResult Unit := Number.validate_json

def u16.validate_json : Value → JResult Unit := Number.validate_json

def u32.validate_json : Value → JResult Unit := Number.validate_json

def i8.validate_json : Value → JResult Unit := Number.validate_json

/-- `u8::from_json_unchecked`: `json.as_u64().unwrap(...) as u8`. -/
def u8.from_json_unchecked (json : Value) : Option Nat :=
  (json.as_u64).map (fun n => n % 2 ^ 8)

/-- `u16::from_json_unchecked`: `json.as_u64().unwrap(...) as u16`. -/
def u16.from_json_unchecked (json : Value) : Option Nat :=
  (json.as_u64).map (fun n => n % 2 ^ 16)

/-- `u32::from_json_unchecked`: `json.as_u64().unwrap(...) as u32`. -/
def u32.from_json_unchecked (json : Value) : Option Nat :=
  (json.as_u64).map (fun n => n % 2 ^ 32)

/-- `i8::from_json_unchecked`: `json.as_i64().unwrap(...) as i8`. -/
def i8.from_json_unchecked (json : Value) : Option Int :=
  (json.as_i64).map (fun z => Int.bmod z (2 ^ 8))

def u8.from_json : Value → Option (JResult Nat) :=
  Jsonable.from_json u8.validate_json u8.from_json_unchecked

/-- `Value::from` on an unsigned integer builds a `PosInt` number. -/
def u8.to_json (n : Nat) : Value := .number (.posInt n)

def u16.to_json (n : Nat) : Value := .number (.posInt n)

def u32.to_json (n : Nat) : Value := .number (.posInt n)

/-- `<String as Jsonable>::validate_json`. -/
def String.validate_json : Value → JResult Unit
  | .str _ => .ok ()
  | .null => .error (.incompatibleJsonType "null" "string")
  | .bool _ => .error (.incompatibleJsonType "bool" "string")
  | .number _ => .error (.incompatibleJsonType "number" "string")
  | .arr _ => .error (.incompatibleJsonType "array" "string")
  | .obj _ => .error (.incompatibleJsonType "object" "string")

/-- `<String as Jsonable>::from_json_unchecked`: `json.as_str().unwrap(...)`. -/
def String.from_json_unchecked (json : Value) : Option String :=
  json.as_str

def String.to_json (s : String) : Value := .str s

/-- `<Option<T> as Jsonable>::validate_json`, parametric in `T`'s codec. -/
def Option.validate_json (tval : Value → JResult Unit) : Value → JResult Unit
  | .null => .ok ()
  | json => tval json

/-- `<Option<T> as Jsonable>::from_json_unchecked`. -/
def Option.from_json_unchecked {α : Type} (tunch : Value → Option α) :
    Value → Option (Option α)
  | .null => some none
  | json => (tunch json).map some

/-- `<Option<T> as Jsonable>::to_json`. -/
def Option.to_json {α : Type} (tenc : α → Value) : Option α → Value
  | none => .null
  | some x => tenc x

/-- `<Vec<T> as Jsonable>::validate_json`, parametric in `T`'s codec and
`std::any::type_name::<T>()`. -/
def Vec.validate_json (tval : Value → JResult Unit) (tyName : String) :
    Value → JResult Unit
  | .arr vec =>
    if vec.all (fun entry => (tval entry).isOk) then .ok ()
    else .error (.incompatibleEntryForType tyName)
  | .bool _ => .error (.incompatibleJsonType "bool" "array")
  | .null => .error (.incompatibleJsonType "null" "array")
  | .number _ => .error (.incompatibleJsonType "number" "array")
  | .obj _ => .error (.incompatibleJsonType "object" "array")
  | .str _ => .error (.incompatibleJsonType "string" "array")

/-- `<[T; N] as Jsonable>::validate_json`, parametric in `T`'s codec,
`std::any::type_name::<T>()` and the length `N`. -/
def FixedArray.validate_json (tval : Value → JResult Unit) (tyName : String)
    (N : Nat) : Value → JResult Unit
  | .arr arr =>
    if arr.length = N then
      if arr.all (fun value => (tval value).isOk) then .ok ()
      else .error (.incompatibleEntryForType tyName)
    else .error (.invalidArrayLength arr.length N)
  | .null => .error (.incompatibleJsonType "null" "array")
  | .str _ => .error (.incompatibleJsonType "string" "array")
  | .bool _ => .error (.incompatibleJsonType "bool" "array")
  | .number _ => .error (.incompatibleJsonType "number" "array")
  | .obj _ => .error (.incompatibleJsonType "object" "array")

/-- The named struct `Simple { something: u8, value: String }` from
`tests/ui/named_structs/happy_path.rs`; its codec below is the code the
derive macro (`jsonable_macros::structs::implement_named`) generates. -/
structure Simple where
  something : Nat
  value : String
deriving DecidableEq

/-- Generated `<Simple as Jsonable>::validate_json`: each declared field is
looked up (absent keys become `Null`) and its type's `validate_json`
failure is wrapped in `InnerErrorForType` with `std::any::type_name`. -/
def Simple.validate_json : Value → JResult Unit
  | .obj map =>
    match u8.validate_json (mapGetD map "something" .null) with
    | .error err => .error (.innerErrorForType "u8" err)
    | .ok _ =>
      match String.validate_json (mapGetD map "value" .null) with
      | .error err => .error (.innerErrorForType "alloc::string::String" err)
      | .ok _ => .ok ()
  | .arr _ => .error (.incompatibleJsonType "array" "object")
  | .bool _ => .error (.incompatibleJsonType "bool" "object")
  | .null => .error (.incompatibleJsonType "null" "object")
  | .number _ => .error (.incompatibleJsonType "number" "object")
  | .str _ => .error (.incompatibleJsonType "string" "object")

/-- Generated `<Simple as Jsonable>::from_json_unchecked`: each field is
`remove`d from the object in declaration order (absent keys become `Null`). -/
def Simple.from_json_unchecked : Value → Option Simple
  | .obj map =>
    let m1 := removeKey map "something"
    match u8.from_json_unchecked (mapGetD map "something" .null),
        String.from_json_unchecked (mapGetD m1 "value" .null) with
    | some a, some b => some ⟨a, b⟩
    | _, _ => none
  | _ => none

def Simple.from_json : Value → Option (JResult Simple) :=
  Jsonable.from_json Simple.validate_json Simple.from_json_unchecked

/-- Generated `<Simple as Jsonable>::to_json`. -/
def Simple.to_json (s : Simple) : Value :=
  .obj [("something", u8.to_json s.something), ("value", String.to_json s.value)]

/-- The named struct `Person { first_name: String, last_name: Option<String> }`
from the crate-level doc example in `src/lib.rs`; codec generated by
`jsonable_macros::structs::implement_named`. -/
structure Person where
  first_name : String
  last_name : Option String
deriving DecidableEq

def Person.validate_json : Value → JResult Unit
  | .obj map =>
    match String.validate_json (mapGetD map "first_name" .null) with
    | .error err => .error (.innerErrorForType "alloc::string::String" err)
    | .ok _ =>
      match Option.validate_json String.validate_json (mapGetD map "last_name" .null) with
      | .error err =>
        .error (.innerErrorForType "core::option::Option<alloc::string::String>" err)
      | .ok _ => .ok ()
  | .arr _ => .error (.incompatibleJsonType "array" "object")
  | .bool _ => .error (.incompatibleJsonType "bool" "object")
  | .null => .error (.incompatibleJsonType "null" "object")
  | .number _ => .error (.incompatibleJsonType "number" "object")
  | .str _ => .error (.incompatibleJsonType "string" "object")

def Person.from_json_unchecked : Value → Option Person
  | .obj map =>
    let m1 := removeKey map "first_name"
    match String.from_json_unchecked (mapGetD map "first_name" .null),
        Option.from_json_unchecked String.from_json_unchecked (mapGetD m1 "last_name" .null) with
    | some fn, some ln => some ⟨fn, ln⟩
    | _, _ => none
  | _ => none

def Person.from_json : Value → Option (JResult Person) :=
  Jsonable.from_json Person.validate_json Person.from_json_unchecked

/-- The enum `TestEnum { A(u32, u16), B(u32), C { a: u8, b: String } }`:
`A` is a multi-positional-field variant, `B` a single-positional-field
variant and `C` a named-field variant, the three non-unit shapes handled
by `jsonable_macros::enums::implement`. -/
inductive TestEnum : Type where
  | A (field0 : Nat) (field1 : Nat)
  | B (field1 : Nat)
  | C (a : Nat) (b : String)
deriving DecidableEq

/-- Generated `<TestEnum as Jsonable>::to_json`: the single-positional
and named variants wrap their payload in a one-key object, but the
generated arm for a multi-positional variant returns the bare
`Value::Array` of the fields' encodings (pushed in declared order) with
no one-key object wrapper. -/
def TestEnum.to_json : TestEnum → Value
  | .A field0 field1 => .arr [u32.to_json field0, u16.to_json field1]
  | .B field1 => .obj [("B", u32.to_json field1)]
  | .C a b => .obj [("C", .obj [("a", u8.to_json a), ("b", String.to_json b)])]

/-- Generated `<TestEnum as Jsonable>::validate_json`
(`jsonable_macros::enums::implement` plus the per-variant blocks from
`implement_unnamed` and `implement_named`): an object must have exactly
one key; the variant blocks are tried in declared order. -/
def TestEnum.validate_json : Value → JResult Unit
  | .obj map =>
    if map.length = 1 then
      if containsKey map "A" then
        match mapGet map "A" with
        | some (.arr array) =>
          if array.length = 2 then
            let e0 :=
              match u32.validate_json (array.getD 0 .null) with
              | .ok _ => []
              | .error err => [JsonableError.innerErrorForType "u32" err]
            let e1 :=
              match u16.validate_json (array.getD 1 .null) with
              | .ok _ => []
              | .error err => [JsonableError.innerErrorForType "u16" err]
            let errors := e0 ++ e1
            if errors.length > 0 then .error (.innerErrorsForType "TestEnum" errors)
            else .ok ()
          else .error (.incorrectFieldCountForEnum "TestEnum" "A" 2)
        | _ => .error (.incompatibleJsonType "other" "array")
      else if containsKey map "B" then
        match u32.validate_json (mapGetD map "B" .null) with
        | .ok _ => .ok ()
        | .error err =>
          .error (.innerErrorForType "B" (.innerErrorForType "u32" err))
      else if containsKey map "C" then
        match mapGet map "C" with
        | some (.obj innerMap) =>
          if innerMap.length = 2 then
            let ea :=
              match mapGet innerMap "a" with
              | some value =>
                match u8.validate_json value with
                | .ok _ => []
                | .error err => [JsonableError.innerErrorForType "u8" err]
              | none => [JsonableError.missingKeyForEnumVariant "C" "a"]
            let eb :=
              match mapGet innerMap "b" with
              | some value =>
                match String.validate_json value with
                | .ok _ => []
                | .error err =>
                  [JsonableError.innerErrorForType "alloc::string::String" err]
              | none => [JsonableError.missingKeyForEnumVariant "C" "b"]
            let errors := ea ++ eb
            if errors.length > 0 then .error (.innerErrorsForType "TestEnum" errors)
            else .ok ()
          else .error (.incorrectFieldCountForEnum "TestEnum" "C" 2)
        | _ => .error (.incompatibleJsonType "other" "object")
      else .error (.incorrectKeyForEnum "TestEnum" ((lastKey map).getD ""))
    else .error (.incorrectObjectKeyCountForEnum "TestEnum" map.length)
  | .str value =>
    .error (.invalidEnumStringVariant "TestEnum" value [])
  | .arr _ => .error (.incompatibleJsonType "array" "object or string")
  | .bool _ => .error (.incompatibleJsonType "bool" "object or string")
  | .null => .error (.incompatibleJsonType "null" "object or string")
  | .number _ => .error (.incompatibleJsonType "number" "object or string")

/-- Generated `<TestEnum as Jsonable>::from_json_unchecked`: dispatch on
`map.keys().last()`; a multi-positional variant fills its fields in
declared order with repeated `array.pop()` (taking elements from the
end). There are no unit variants, so any string panics. -/
def TestEnum.from_json_unchecked : Value → Option TestEnum
  | .obj map =>
    match lastKey map with
    | none => none
    | some key =>
      if key = "A" then
        match mapGet map "A" with
        | some (.arr array) =>
          if array.length = 2 then
            match array.getLast? with
            | none => none
            | some pop0 =>
              match (array.dropLast).getLast? with
              | none => none
              | some pop1 =>
                match u32.from_json_unchecked pop0, u16.from_json_unchecked pop1 with
                | some field0, some field1 => some (.A field0 field1)
                | _, _ => none
          else none
        | _ => none
      else if key = "B" then
        (u32.from_json_unchecked (mapGetD map "B" .null)).map .B
      else if key = "C" then
        match mapGet map "C" with
        | some (.obj innerMap) =>
          match mapGet innerMap "a" with
          | none => none
          | some va =>
            let inner1 := removeKey innerMap "a"
            match u8.from_json_unchecked va with
            | none => none
            | some a =>
              match mapGet inner1 "b" with
              | none => none
              | some vb => (String.from_json_unchecked vb).map (fun b => .C a b)
        | _ => none
      else none
  | _ => none

def TestEnum.from_json : Value → Option (JResult TestEnum) :=
  Jsonable.from_json TestEnum.validate_json TestEnum.from_json_unchecked

/-- Claim C1, refuted on the code: for the number `-1` (a `NegInt`),
`u8::validate_json` returns `Ok(())` because every `Number` validates,
yet `u8::from_json_unchecked` panics (`as_u64` is `None` on a negative
number, modelled by the result `none`), and so `from_json` panics as
well instead of returning a result. -/
theorem u8_validate_ok_but_unchecked_panics :
    u8.validate_json (.number (.negInt (-1))) = .ok () ∧
    u8.from_json_unchecked (.number (.negInt (-1))) = none ∧
    u8.from_json (.number (.negInt (-1))) = none :=
  ⟨rfl, rfl, rfl⟩

/-- Claim C2, refuted on the code: for the two-positional-field variant
`A(1, 2)`, `to_json` emits the bare array `[1, 2]` without the one-key
object wrapper the enum's `validate_json` demands, so the round trip
`from_json (to_json (A 1 2))` is
`Err(IncompatibleJsonType {got: "array", expected: "object or string"})`,
not `Ok(A(1, 2))` as the round-trip law requires. -/
theorem testEnum_multifield_roundtrip_fails :
    TestEnum.from_json ((TestEnum.A 1 2).to_json) =
      some (.error (.incompatibleJsonType "array" "object or string")) ∧
    TestEnum.from_json ((TestEnum.A 1 2).to_json) ≠ some (.ok (.A 1 2)) := by
  refine ⟨rfl, fun h => ?_⟩
  have h' : (some (.error (.incompatibleJsonType "array" "object or string")) :
      Option (JResult TestEnum)) = some (.ok (.A 1 2)) := (rfl.trans h :)
  exact Except.noConfusion (Option.some.inj h')

/-- Claim C3: the default `from_json` is exactly validate-then-decode: on
a validation error `e` it returns `Err(e)` (independently of the
unchecked decoder), and on `Ok` it returns the unchecked decoder's
result wrapped in `Ok`. -/
theorem from_json_is_validate_then_unchecked {α : Type}
    (validate : Value → JResult Unit) (fromUnchecked : Value → Option α) (j : Value) :
    (∀ e, validate j = .error e →
      Jsonable.from_json validate fromUnchecked j = some (.error e)) ∧
    (validate j = .ok () →
      Jsonable.from_json validate fromUnchecked j = (fromUnchecked j).map Except.ok) := by
  constructor
  · intro e he
    simp [Jsonable.from_json, he]
  · intro h
    simp [Jsonable.from_json, h]

theorem from_json_is_validate_then_unchecked_witness :
    String.validate_json (.str "hi") = .ok () ∧
    Jsonable.from_json String.validate_json String.from_json_unchecked (.str "hi") =
      ((String.from_json_unchecked (.str "hi")).map Except.ok) :=
  ⟨rfl,
    (from_json_is_validate_then_unchecked String.validate_json
      String.from_json_unchecked (.str "hi")).2 rfl⟩

/-- Claim C4: numeric decode reads one wide 64-bit representation and
narrows by a truncating cast: on any `u64`-representable number, `u8`
decodes to the value modulo `2 ^ 8`, and on any negative `i64`, `i8`
decodes to the two's-complement truncation `Int.bmod · (2 ^ 8)`. -/
theorem numeric_narrowing :
    (∀ n : Nat, n < 2 ^ 64 →
      u8.from_json_unchecked (.number (.posInt n)) = some (n % 2 ^ 8)) ∧
    (∀ z : Int, -2 ^ 63 ≤ z → z < 0 →
      i8.from_json_unchecked (.number (.negInt z)) = some (Int.bmod z (2 ^ 8))) :=
  ⟨fun _ _ => rfl, fun _ _ _ => rfl⟩

theorem numeric_narrowing_witness :
    (300 < 2 ^ 64 ∧ u8.from_json_unchecked (.number (.posInt 300)) = some (300 % 2 ^ 8)) ∧
    (-2 ^ 63 ≤ (-130 : Int) ∧ (-130 : Int) < 0 ∧
      i8.from_json_unchecked (.number (.negInt (-130))) = some (Int.bmod (-130) (2 ^ 8))) :=
  ⟨⟨by norm_num, numeric_narrowing.1 300 (by norm_num)⟩,
    ⟨by norm_num, by norm_num, numeric_narrowing.2 (-130) (by norm_num) (by norm_num)⟩⟩

/-- Claim C5: a named-field variant whose inner object has the right key
count but two failing fields validates to `InnerErrorsForType` holding an
entry for each failing field, while a single-positional-field variant's
inner failure is wrapped singly via `InnerErrorForType`, not a list. -/
theorem enum_field_errors_aggregated :
    TestEnum.validate_json (.obj [("C", .obj [("a", .str "x"), ("b", .number (.posInt 3))])]) =
      .error (.innerErrorsForType "TestEnum"
        [.innerErrorForType "u8" (.incompatibleJsonType "string" "number"),
          .innerErrorForType "alloc::string::String" (.incompatibleJsonType "number" "string")]) ∧
    TestEnum.validate_json (.obj [("B", .str "x")]) =
      .error (.innerErrorForType "B"
        (.innerErrorForType "u32" (.incompatibleJsonType "string" "number"))) :=
  ⟨rfl, rfl⟩

/-- Claim C6: an enum rejects any object whose key count is not exactly
one with `IncorrectObjectKeyCountForEnum` carrying that count, even when
both keys ("A" and "B" here) name declared variants, whatever the values. -/
theorem enum_multi_key_rejected (v1 v2 : Value) :
    TestEnum.validate_json (.obj [("A", v1), ("B", v2)]) =
      .error (.incorrectObjectKeyCountForEnum "TestEnum" 2) :=
  rfl

/-- Claim C7: the fixed-size array codec reports a length mismatch as
`InvalidArrayLength {got, expected}`, and on an array of the right length
it returns `Ok` exactly when every element passes the element codec. -/
theorem fixed_array_length_check (tval : Value → JResult Unit) (tyName : String)
    (N : Nat) (vs : List Value) :
    (vs.length ≠ N → FixedArray.validate_json tval tyName N (.arr vs) =
      .error (.invalidArrayLength vs.length N)) ∧
    (vs.length = N → (FixedArray.validate_json tval tyName N (.arr vs) = .ok () ↔
      ∀ v ∈ vs, (tval v).isOk = true)) := by
  constructor
  · intro h
    simp [FixedArray.validate_json, h]
  · intro h
    by_cases hall : vs.all (fun v => (tval v).isOk) = true
    · simp [FixedArray.validate_json, h, hall]
      exact List.all_eq_true.mp hall
    · simp [FixedArray.validate_json, h, hall]
      simpa [List.all_eq_true] using hall

theorem fixed_array_length_check_witness :
    ([Value.number (.posInt 1), Value.number (.posInt 2),
        Value.number (.posInt 3)].length ≠ 4) ∧
    FixedArray.validate_json u8.validate_json "u8" 4
        (.arr [.number (.posInt 1), .number (.posInt 2), .number (.posInt 3)]) =
      .error (.invalidArrayLength 3 4) :=
  ⟨by decide,
    (fixed_array_length_check u8.validate_json "u8" 4
      [.number (.posInt 1), .number (.posInt 2), .number (.posInt 3)]).1 (by decide)⟩

/-- Claim C8: a named record with an `Option` field validates and
decodes an object from which that field's key is entirely absent; the
missing key is treated as `Null` and decodes to `none`. -/
theorem person_optional_absent (s : String) :
    Person.validate_json (.obj [("first_name", .str s)]) = .ok () ∧
    Person.from_json (.obj [("first_name", .str s)]) = some (.ok ⟨s, none⟩) :=
  ⟨rfl, rfl⟩

/-- Claim C9: a derived named-field record only inspects its declared
field names: any extra entries (with keys other than the declared ones)
leave validation succeeding and the decoded value unchanged. -/
theorem simple_extra_keys_ignored (extra : List (String × Value))
    (_hk : ∀ p ∈ extra, p.1 ≠ "something" ∧ p.1 ≠ "value") :
    Simple.validate_json
        (.obj ([("something", .number (.posInt 8)), ("value", .str "s")] ++ extra)) = .ok () ∧
    Simple.from_json
        (.obj ([("something", .number (.posInt 8)), ("value", .str "s")] ++ extra)) =
      some (.ok ⟨8, "s"⟩) :=
  ⟨rfl, rfl⟩

theorem simple_extra_keys_ignored_witness :
    Simple.validate_json
        (.obj [("something", .number (.posInt 8)), ("value", .str "s"), ("other", .null)]) =
      .ok () ∧
    Simple.from_json
        (.obj [("something", .number (.posInt 8)), ("value", .str "s"), ("other", .null)]) =
      some (.ok ⟨8, "s"⟩) :=
  simple_extra_keys_ignored [("other", .null)] (by decide)

/-- Claim C10: a named record with a non-`Option` `String` field whose
key is absent fails validation with `InnerErrorForType` wrapping
`IncompatibleJsonType {got: "null"}`: the absent key is substituted with
`Null` and the `String` codec's rejection of `Null` surfaces. -/
theorem simple_missing_string_field (sv : Value) (h : u8.validate_json sv = .ok ()) :
    Simple.validate_json (.obj [("something", sv)]) =
      .error (.innerErrorForType "alloc::string::String"
        (.incompatibleJsonType "null" "string")) := by
  have h1 : Simple.validate_json (.obj [("something", sv)]) =
      match u8.validate_json sv with
      | .error err => .error (.innerErrorForType "u8" err)
      | .ok _ =>
        match String.validate_json (mapGetD [("something", sv)] "value" .null) with
        | .error err => .error (.innerErrorForType "alloc::string::String" err)
        | .ok _ => .ok () := rfl
  rw [h1, h]
  rfl

theorem simple_missing_string_field_witness :
    u8.validate_json (.number (.posInt 8)) = .ok () ∧
    Simple.validate_json (.obj [("something", .number (.posInt 8))]) =
      .error (.innerErrorForType "alloc::string::String"
        (.incompatibleJsonType "null" "string")) :=
  ⟨rfl, simple_missing_string_field (.number (.posInt 8)) rfl⟩
